import Mathlib

/-!
Shallow embedding of `packages/api/src/resolvers/discover_feeds/add.ts`
(the `addDiscoverFeed` GraphQL mutation of the Omnivore API).

External collaborators (axios, fast-xml-parser, the relational store, the
pubsub publisher, uuid) are modelled as inputs of the operation:
* the HTTP response is an `Option HttpResp` (`none` means `axios.get` rejected),
* the XML parse result is an `Option ParsedDoc` (`none` means `parser.parse`
  threw); the parse tree is only consulted after the content-type gate, as in
  the source,
* the store is an explicit `Store` value; raw `queryRunner.query` calls are
  list operations on it (the source casts query results to a `rows` array),
* `v4()` and the success of `pubsub.entityCreated` are inputs `newId` and
  `publishOk`.

JavaScript value semantics the source relies on is embedded explicitly:
optional object keys are `Option` (with `none` standing for an absent or
falsy value), `??` is `Option.getD`, a property access on a possibly
`undefined` object without `?.` is a thrown `TypeError` (`Except.error`), and
the relational comparison `array > 1` goes through `jsArrayToPrimitive` and
`jsStringToNumber` below.
-/

namespace Omnivore

/-- A parsed `<image>` element: the source reads its `url` key. -/
structure ImageObj where
  url : Option String
deriving DecidableEq, Repr

/-- The parsed `channel` element of an RSS/RDF document.  A real parse tree
may carry a `channel.image` key; the source never reads it (it reads the
root-level `image` key instead), but we keep it so documents that have one
are representable. -/
structure RssChannel where
  title : Option String
  description : Option String
  image : Option ImageObj
deriving DecidableEq, Repr

/-- The content under an `rss` (or `rdf:RDF`) root key.  `image` is the
root-level image object: the source's type annotation for `extractRssData`
places `image` as a sibling of `channel`, and the code reads
`parsedXml.image?.url`. -/
structure RssContent where
  channel : Option RssChannel
  image : Option ImageObj
deriving DecidableEq, Repr

/-- The content under a `feed` (Atom) root key. -/
structure AtomContent where
  title : Option String
  subtitle : Option String
  icon : Option String
deriving DecidableEq, Repr

/-- The result of `parser.parse`: presence of the three root keys the source
inspects.  `none` stands for a key that is absent or falsy in JavaScript;
`rdfRDF` is the `rdf:RDF` key. -/
structure ParsedDoc where
  rss : Option RssContent
  rdfRDF : Option RssContent
  feed : Option AtomContent
deriving DecidableEq, Repr

/-- The `Partial<DiscoverFeed>` record built by the two extractors: all of
title, description, link and type are set, image may be absent. -/
structure FeedData where
  title : String
  description : String
  image : Option String
  link : String
  type : String
deriving DecidableEq, Repr

/-- `extractAtomData` from the source: description from `subtitle ?? ''`,
title from `title ?? url`, image from `icon`, link is the requested URL,
type tag `atom`. -/
def extractAtomData (url : String) (feed : AtomContent) : FeedData :=
  { description := feed.subtitle.getD ""
    title := feed.title.getD url
    image := feed.icon
    link := url
    type := "atom" }

/-- `extractRssData` from the source.  `parsedXml.channel?.description ?? ''`
tolerates a missing channel, but `parsedXml.channel.title` does not: when
`channel` is absent the access throws a TypeError, modelled as `none`.
The image is read from the root-level `image` key (`parsedXml.image?.url`). -/
def extractRssData (url : String) (parsedXml : RssContent) : Option FeedData :=
  match parsedXml.channel with
  | none => none
  | some channel => some
      { description := channel.description.getD ""
        title := channel.title.getD url
        image := parsedXml.image.bind ImageObj.url
        link := url
        type := "rss" }

/-- A row of `omnivore.discover_feed`. -/
structure FeedRow where
  id : String
  title : String
  link : String
  image : Option String
  type : String
  description : String
deriving DecidableEq, Repr

/-- A row of `omnivore.discover_feed_subscription`. -/
structure SubRow where
  feed_id : String
  user_id : String
deriving DecidableEq, Repr

/-- The relational store visible to the resolver: the two tables it touches. -/
structure Store where
  feeds : List FeedRow
  subs : List SubRow
deriving DecidableEq, Repr

/-- The GraphQL `DiscoverFeed` shape carried by a success result.  The
existing-feed path returns the row of `SELECT id ...` unchanged, so every
field but `id` may be absent. -/
structure DiscoverFeed where
  id : String
  title : Option String
  link : Option String
  description : Option String
  image : Option String
  type : Option String
deriving DecidableEq, Repr

/-- `AddDiscoverFeedErrorCode` from the generated GraphQL schema, restricted
to the codes this resolver can produce. -/
inductive AddDiscoverFeedErrorCode where
  | BadRequest
  | Conflict
  | Unauthorized
deriving DecidableEq, Repr

/-- `AddDiscoverFeedSuccess | AddDiscoverFeedError`. -/
inductive AddResult where
  | success (feed : DiscoverFeed)
  | error (errorCodes : List AddDiscoverFeedErrorCode)
deriving DecidableEq, Repr

/-- JavaScript `ToPrimitive` of an array of `n` row objects:
`Array.prototype.join` with commas, each row object rendering as
`[object Object]`. -/
def jsArrayToPrimitive : Nat → String
  | 0 => ""
  | 1 => "[object Object]"
  | n + 2 => "[object Object]," ++ jsArrayToPrimitive (n + 1)

/-- JavaScript `ToNumber` of a string: the empty string is `0`, a digit
string is its value, anything else is `NaN` (`none`). -/
def jsStringToNumber (s : String) : Option Nat :=
  match s.data with
  | [] => some 0
  | c :: cs =>
      if (c :: cs).all Char.isDigit then
        some ((c :: cs).foldl (fun a d => a * 10 + (d.toNat - 48)) 0)
      else none

/-- The guard `existingSubscription.rows > 1` from
`handleExistingSubscription`: `rows` is the array of subscription rows, the
relational comparison converts it to a primitive string, then to a number,
and a comparison against `NaN` is false. -/
def jsRowsGtOne (rows : List SubRow) : Bool :=
  match jsStringToNumber (jsArrayToPrimitive rows.length) with
  | none => false
  | some n => decide (1 < n)

/-- The bare row returned by `SELECT id from omnivore.discover_feed`. -/
def bareRow (id : String) : DiscoverFeed :=
  { id := id, title := none, link := none, description := none,
    image := none, type := none }

/-- Outcome of one of the two inner helpers: the GraphQL result, the store
after the helper's inserts, and whether the helper released the query
runner. -/
structure SubOutcome where
  result : AddResult
  store : Store
  released : Bool
deriving DecidableEq, Repr

/-- `handleExistingSubscription` from the source: select the subscription
rows for `(userId, feed.id)`; when the JavaScript guard `rows > 1` fires,
release the runner and return `Conflict`; otherwise insert a subscription row
and return success carrying the `feed` argument unchanged (the bare
`SELECT id` row), without releasing the runner. -/
def handleExistingSubscription (st : Store) (feed : DiscoverFeed)
    (userId : String) : SubOutcome :=
  let existingSubscription :=
    st.subs.filter fun s => s.user_id = userId && s.feed_id = feed.id
  if jsRowsGtOne existingSubscription then
    { result := .error [.Conflict], store := st, released := true }
  else
    { result := .success feed
      store := { st with subs := st.subs ++ [⟨feed.id, userId⟩] }
      released := false }

/-- The HTTP response of `axios.get`: the source only reads
`response.headers['content-type']` (possibly absent) and hands the body to
the parser, whose outcome is modelled separately. -/
structure HttpResp where
  contentType : Option String
deriving DecidableEq, Repr

/-- Whether the pattern occurs at the head of the character list. -/
def charsStartWith : List Char → List Char → Bool
  | _, [] => true
  | [], _ :: _ => false
  | c :: cs, p :: ps => c = p && charsStartWith cs ps

/-- Whether the pattern occurs somewhere in the character list. -/
def charsContain : List Char → List Char → Bool
  | [], pat => pat.isEmpty
  | c :: cs, pat => charsStartWith (c :: cs) pat || charsContain cs pat

/-- `String.prototype.includes` on the content-type header. -/
def jsIncludes (s pat : String) : Bool :=
  charsContain s.data pat.data

/-- The `isXML` check of `addNewSubscription`: an absent header makes every
optional-chained `includes` call `undefined`, hence falsy. -/
def isXMLContentType (ct : Option String) : Bool :=
  match ct with
  | none => false
  | some c =>
      jsIncludes c "text/rss+xml" || jsIncludes c "text/atom+xml" ||
        jsIncludes c "application/xml"

/-- The format dispatch of `addNewSubscription`: the ternary
`parsedFeed?.rss || parsedFeed['rdf:RDF'] ? extractRssData(...) :
extractAtomData(...)`.  `none` here means extraction threw (missing
`channel` on the RSS path); all-roots-absent is unreachable behind the root
guard. -/
def extractForDoc (url : String) (doc : ParsedDoc) : Option FeedData :=
  match doc.rss, doc.rdfRDF with
  | some r, _ => extractRssData url r
  | none, some r => extractRssData url r
  | none, none =>
      match doc.feed with
      | some f => some (extractAtomData url f)
      | none => none

/-- Per-call behavior of the external collaborators. -/
structure Env where
  connectOk : Bool
  fetchResp : Option HttpResp
  parseResult : Option ParsedDoc
  newId : String
  publishOk : Bool
deriving DecidableEq, Repr

/-- `addNewSubscription` from the source.  `Except.error ()` is an exception
escaping to the resolver's catch: a rejected `axios.get`, a throwing
`parser.parse`, or the TypeError inside `extractRssData`.  The three
validation returns (content type, root guard, empty title) return
`BadRequest` without touching the store and without releasing the runner;
only the success return releases it. -/
def addNewSubscription (env : Env) (st : Store) (url userId : String) :
    Except Unit SubOutcome :=
  match env.fetchResp with
  | none => .error ()
  | some response =>
      if !isXMLContentType response.contentType then
        .ok { result := .error [.BadRequest], store := st, released := false }
      else
        match env.parseResult with
        | none => .error ()
        | some parsedFeed =>
            if parsedFeed.rss.isNone && parsedFeed.rdfRDF.isNone &&
                parsedFeed.feed.isNone then
              .ok { result := .error [.BadRequest], store := st,
                    released := false }
            else
              match extractForDoc url parsedFeed with
              | none => .error ()
              | some feed =>
                  if feed.title = "" then
                    .ok { result := .error [.BadRequest], store := st,
                          released := false }
                  else
                    let discoverFeedId := env.newId
                    let feedRow : FeedRow :=
                      { id := discoverFeedId, title := feed.title,
                        link := feed.link, image := feed.image,
                        type := feed.type, description := feed.description }
                    let st1 : Store := { st with feeds := st.feeds ++ [feedRow] }
                    let st2 : Store :=
                      { st1 with subs := st1.subs ++ [⟨discoverFeedId, userId⟩] }
                    .ok { result := .success
                            { id := discoverFeedId, title := some feed.title,
                              link := some feed.link,
                              description := some feed.description,
                              image := feed.image, type := some feed.type }
                          store := st2
                          released := true }

/-- The `entityCreated` call observed on the success path:
`entityCreated(EntityType.RSS_FEED, payload, uid)` with
`payload = { feed, libraryItemId: 'NA' }`. -/
structure PubEvent where
  kind : String
  feed : DiscoverFeed
  libraryItemId : String
  ownerId : String
deriving DecidableEq, Repr

/-- Everything observable about one resolver call: the returned result, the
final store, whether a query runner was acquired and whether it was released
before returning, the `entityCreated` invocation if one happened, and whether
the catch-path logger ran. -/
structure CallOutcome where
  result : AddResult
  store : Store
  acquired : Bool
  released : Bool
  published : Option PubEvent
  logged : Bool
deriving DecidableEq, Repr

/-- `addDiscoverFeedResolver` from the source.  The whole body sits in a
`try`; any modelled exception (failed `connect`, or an `Except.error` from
`addNewSubscription`, or a rejected `pubsub.entityCreated`) reaches the
catch, which logs and returns the `Unauthorized` error.  The existing-feed
lookup is `SELECT id ... where link = $1`, and its first row is handed to
`handleExistingSubscription`; otherwise `addNewSubscription` runs and, when
it returns a success, `entityCreated` is awaited before the result is
returned. -/
def addDiscoverFeedResolver (env : Env) (st : Store) (url uid : String) :
    CallOutcome :=
  if !env.connectOk then
    { result := .error [.Unauthorized], store := st, acquired := false,
      released := false, published := none, logged := true }
  else
    let existingFeedRows :=
      (st.feeds.filter fun r => r.link = url).map fun r => bareRow r.id
    match existingFeedRows with
    | row :: _ =>
        let o := handleExistingSubscription st row uid
        { result := o.result, store := o.store, acquired := true,
          released := o.released, published := none, logged := false }
    | [] =>
        match addNewSubscription env st url uid with
        | .error () =>
            { result := .error [.Unauthorized], store := st, acquired := true,
              released := false, published := none, logged := true }
        | .ok o =>
            match o.result with
            | .success f =>
                let ev : PubEvent :=
                  { kind := "RSS_FEED", feed := f, libraryItemId := "NA",
                    ownerId := uid }
                if env.publishOk then
                  { result := .success f, store := o.store, acquired := true,
                    released := o.released, published := some ev,
                    logged := false }
                else
                  { result := .error [.Unauthorized], store := o.store,
                    acquired := true, released := o.released,
                    published := some ev, logged := true }
            | .error cs =>
                { result := .error cs, store := o.store, acquired := true,
                  released := o.released, published := none, logged := false }

/-- Number of `discover_feed` rows whose link is `url`. -/
def linkCount (st : Store) (url : String) : Nat :=
  (st.feeds.filter fun r => r.link = url).length

/-- A sequence of resolver calls on one URL, each with its own collaborator
behavior and caller. -/
def runCalls (st : Store) (url : String) : List (Env × String) → Store
  | [] => st
  | (env, uid) :: rest =>
      runCalls (addDiscoverFeedResolver env st url uid).store url rest

/-! ## Concrete documents, environments and stores used by witnesses -/

/-- `<rss><channel><title>Daily</title><description>News</description></channel></rss>`. -/
def dailyDoc : ParsedDoc :=
  ⟨some ⟨some ⟨some "Daily", some "News", none⟩, none⟩, none, none⟩

/-- A valid Atom document with an empty `<title></title>`. -/
def atomEmptyTitleDoc : ParsedDoc :=
  ⟨none, none, some ⟨some "", none, none⟩⟩

/-- An RSS document whose `channel` carries `image.url = "http://img"` and
whose root carries no `image` key, as in a standard RSS feed. -/
def channelImageDoc : ParsedDoc :=
  ⟨some ⟨some ⟨some "T", some "D", some ⟨some "http://img"⟩⟩, none⟩, none, none⟩

/-- A parsed document carrying both an `rss` root and a `feed` root. -/
def bothRootsDoc : ParsedDoc :=
  ⟨some ⟨some ⟨some "R", none, none⟩, none⟩, none,
    some ⟨some "A", some "sub", some "icon"⟩⟩

/-- Collaborators for a successful new-feed discovery of `dailyDoc`. -/
def dailyEnv : Env :=
  ⟨true, some ⟨some "application/xml"⟩, some dailyDoc, "fid", true⟩

/-- Same fetch, but the response declares `text/html`. -/
def htmlEnv : Env :=
  ⟨true, some ⟨some "text/html"⟩, some dailyDoc, "fid", true⟩

/-- Collaborators serving `atomEmptyTitleDoc` as `application/xml`. -/
def atomEmptyTitleEnv : Env :=
  ⟨true, some ⟨some "application/xml"⟩, some atomEmptyTitleDoc, "fid", true⟩

/-- Collaborators serving `channelImageDoc` as `application/xml`. -/
def channelImageEnv : Env :=
  ⟨true, some ⟨some "application/xml"⟩, some channelImageDoc, "fid", true⟩

/-- Collaborators serving `bothRootsDoc` as `application/xml`. -/
def bothRootsEnv : Env :=
  ⟨true, some ⟨some "application/xml"⟩, some bothRootsDoc, "fid", true⟩

/-- Collaborators for a successful fetch of `dailyDoc` whose
`pubsub.entityCreated` rejects. -/
def publishFailEnv : Env :=
  ⟨true, some ⟨some "application/xml"⟩, some dailyDoc, "fid", false⟩

/-- Collaborators where the HTTP fetch itself rejects. -/
def fetchThrowEnv : Env :=
  ⟨true, none, none, "fid", true⟩

/-- A store already holding the feed `f1` with link `http://u`, and two
subscription rows of user `user` to it. -/
def twoSubsStore : Store :=
  ⟨[⟨"f1", "T", "http://u", none, "rss", "D"⟩],
    [⟨"f1", "user"⟩, ⟨"f1", "user"⟩]⟩

/-- A store already holding the fully populated feed `f1` and no
subscriptions. -/
def oneFeedStore : Store :=
  ⟨[⟨"f1", "T", "http://u", some "I", "rss", "D"⟩], []⟩

/-! ## Supporting lemmas -/

theorem jsStringToNumber_head_bracket (s : String)
    (h : s.data.head? = some '[') : jsStringToNumber s = none := by
  unfold jsStringToNumber
  cases hs : s.data with
  | nil => rw [hs] at h; simp at h
  | cons c cs =>
      rw [hs] at h
      simp only [List.head?_cons, Option.some.injEq] at h
      subst h
      simp [List.all_cons, hs]

theorem jsArrayToPrimitive_head (n : Nat) :
    (jsArrayToPrimitive (n + 1)).data.head? = some '[' := by
  cases n with
  | zero => decide
  | succ m =>
      show ("[object Object]," ++ jsArrayToPrimitive (m + 1)).data.head? = some '['
      rw [String.data_append,
        show ("[object Object]," : String).data = '[' :: "object Object],".data
          from rfl]
      rfl

theorem jsRowsGtOne_eq_false (rows : List SubRow) :
    jsRowsGtOne rows = false := by
  unfold jsRowsGtOne
  cases hn : rows.length with
  | zero => decide
  | succ m =>
      rw [jsStringToNumber_head_bracket _ (jsArrayToPrimitive_head m)]

theorem extractForDoc_link (url : String) (doc : ParsedDoc) (fd : FeedData)
    (h : extractForDoc url doc = some fd) : fd.link = url := by
  cases hr : doc.rss with
  | some r =>
      cases hc : r.channel with
      | none => simp [extractForDoc, extractRssData, hr, hc] at h
      | some ch =>
          simp only [extractForDoc, extractRssData, hr, hc,
            Option.some.injEq] at h
          subst h; rfl
  | none =>
      cases hd : doc.rdfRDF with
      | some r =>
          cases hc : r.channel with
          | none => simp [extractForDoc, extractRssData, hr, hd, hc] at h
          | some ch =>
              simp only [extractForDoc, extractRssData, hr, hd, hc,
                Option.some.injEq] at h
              subst h; rfl
      | none =>
          cases hf : doc.feed with
          | none => simp [extractForDoc, hr, hd, hf] at h
          | some f =>
              simp only [extractForDoc, extractAtomData, hr, hd, hf,
                Option.some.injEq] at h
              subst h; rfl

theorem extractForDoc_roots (url : String) (doc : ParsedDoc) (fd : FeedData)
    (h : extractForDoc url doc = some fd) :
    (doc.rss.isNone && doc.rdfRDF.isNone && doc.feed.isNone) = false := by
  cases hr : doc.rss with
  | some r => simp [hr]
  | none =>
      cases hd : doc.rdfRDF with
      | some r => simp [hr, hd]
      | none =>
          cases hfe : doc.feed with
          | some f => simp [hr, hd, hfe]
          | none => simp [extractForDoc, hr, hd, hfe] at h

theorem addNewSubscription_fetch_throw (env : Env) (st : Store)
    (url userId : String) (hf : env.fetchResp = none) :
    addNewSubscription env st url userId = .error () := by
  simp [addNewSubscription, hf]

theorem addNewSubscription_not_xml (env : Env) (st : Store)
    (url userId : String) (resp : HttpResp) (hf : env.fetchResp = some resp)
    (hx : isXMLContentType resp.contentType = false) :
    addNewSubscription env st url userId =
      .ok ⟨.error [.BadRequest], st, false⟩ := by
  simp [addNewSubscription, hf, hx]

theorem addNewSubscription_parse_throw (env : Env) (st : Store)
    (url userId : String) (resp : HttpResp) (hf : env.fetchResp = some resp)
    (hx : isXMLContentType resp.contentType = true)
    (hp : env.parseResult = none) :
    addNewSubscription env st url userId = .error () := by
  simp [addNewSubscription, hf, hx, hp]

theorem addNewSubscription_no_root (env : Env) (st : Store)
    (url userId : String) (resp : HttpResp) (doc : ParsedDoc)
    (hf : env.fetchResp = some resp)
    (hx : isXMLContentType resp.contentType = true)
    (hp : env.parseResult = some doc)
    (hroots : (doc.rss.isNone && doc.rdfRDF.isNone && doc.feed.isNone) = true) :
    addNewSubscription env st url userId =
      .ok ⟨.error [.BadRequest], st, false⟩ := by
  simp [addNewSubscription, hf, hx, hp, hroots]

theorem addNewSubscription_extract_throw (env : Env) (st : Store)
    (url userId : String) (resp : HttpResp) (doc : ParsedDoc)
    (hf : env.fetchResp = some resp)
    (hx : isXMLContentType resp.contentType = true)
    (hp : env.parseResult = some doc)
    (hroots : (doc.rss.isNone && doc.rdfRDF.isNone && doc.feed.isNone) = false)
    (he : extractForDoc url doc = none) :
    addNewSubscription env st url userId = .error () := by
  simp [addNewSubscription, hf, hx, hp, hroots, he]

theorem addNewSubscription_empty_title (env : Env) (st : Store)
    (url userId : String) (resp : HttpResp) (doc : ParsedDoc) (fd : FeedData)
    (hf : env.fetchResp = some resp)
    (hx : isXMLContentType resp.contentType = true)
    (hp : env.parseResult = some doc)
    (he : extractForDoc url doc = some fd) (ht : fd.title = "") :
    addNewSubscription env st url userId =
      .ok ⟨.error [.BadRequest], st, false⟩ := by
  simp [addNewSubscription, hf, hx, hp, extractForDoc_roots url doc fd he,
    he, ht]

theorem addNewSubscription_success (env : Env) (st : Store)
    (url userId : String) (resp : HttpResp) (doc : ParsedDoc) (fd : FeedData)
    (hf : env.fetchResp = some resp)
    (hx : isXMLContentType resp.contentType = true)
    (hp : env.parseResult = some doc)
    (he : extractForDoc url doc = some fd) (ht : ¬fd.title = "") :
    addNewSubscription env st url userId =
      .ok ⟨.success ⟨env.newId, some fd.title, some fd.link,
              some fd.description, fd.image, some fd.type⟩,
            ⟨st.feeds ++ [⟨env.newId, fd.title, fd.link, fd.image, fd.type,
                fd.description⟩],
              st.subs ++ [⟨env.newId, userId⟩]⟩, true⟩ := by
  simp [addNewSubscription, hf, hx, hp, extractForDoc_roots url doc fd he,
    he, ht]

theorem addNewSubscription_ok_cases (env : Env) (st : Store)
    (url userId : String) (so : SubOutcome)
    (h : addNewSubscription env st url userId = .ok so) :
    so = ⟨.error [.BadRequest], st, false⟩ ∨
    (∃ doc fd, env.parseResult = some doc ∧ extractForDoc url doc = some fd ∧
      fd.title ≠ "" ∧ fd.link = url ∧
      so = ⟨.success ⟨env.newId, some fd.title, some fd.link,
              some fd.description, fd.image, some fd.type⟩,
            ⟨st.feeds ++ [⟨env.newId, fd.title, fd.link, fd.image, fd.type,
                fd.description⟩],
              st.subs ++ [⟨env.newId, userId⟩]⟩, true⟩) := by
  cases hf : env.fetchResp with
  | none => rw [addNewSubscription_fetch_throw env st url userId hf] at h
            simp at h
  | some resp =>
      cases hx : isXMLContentType resp.contentType with
      | false =>
          rw [addNewSubscription_not_xml env st url userId resp hf hx] at h
          injection h with h'
          exact Or.inl h'.symm
      | true =>
          cases hp : env.parseResult with
          | none =>
              rw [addNewSubscription_parse_throw env st url userId resp
                hf hx hp] at h
              simp at h
          | some doc =>
              cases he : extractForDoc url doc with
              | none =>
                  cases hroots : (doc.rss.isNone && doc.rdfRDF.isNone &&
                      doc.feed.isNone) with
                  | true =>
                      rw [addNewSubscription_no_root env st url userId resp
                        doc hf hx hp hroots] at h
                      injection h with h'
                      exact Or.inl h'.symm
                  | false =>
                      rw [addNewSubscription_extract_throw env st url userId
                        resp doc hf hx hp hroots he] at h
                      simp at h
              | some fd =>
                  by_cases ht : fd.title = ""
                  · rw [addNewSubscription_empty_title env st url userId resp
                      doc fd hf hx hp he ht] at h
                    injection h with h'
                    exact Or.inl h'.symm
                  · rw [addNewSubscription_success env st url userId resp
                      doc fd hf hx hp he ht] at h
                    injection h with h'
                    exact Or.inr ⟨doc, fd, rfl, he, ht,
                      extractForDoc_link url doc fd he, h'.symm⟩

theorem resolver_connect_fail (env : Env) (st : Store) (url uid : String)
    (hc : env.connectOk = false) :
    addDiscoverFeedResolver env st url uid =
      ⟨.error [.Unauthorized], st, false, false, none, true⟩ := by
  simp [addDiscoverFeedResolver, hc]

theorem resolver_existing (env : Env) (st : Store) (url uid : String)
    (r : FeedRow) (rest : List FeedRow) (hc : env.connectOk = true)
    (hrows : st.feeds.filter (fun fr => fr.link = url) = r :: rest) :
    addDiscoverFeedResolver env st url uid =
      ⟨.success (bareRow r.id), ⟨st.feeds, st.subs ++ [⟨r.id, uid⟩]⟩,
        true, false, none, false⟩ := by
  simp [addDiscoverFeedResolver, hc, hrows, handleExistingSubscription,
    jsRowsGtOne_eq_false, bareRow]

theorem resolver_new_throw (env : Env) (st : Store) (url uid : String)
    (hc : env.connectOk = true)
    (hrows : st.feeds.filter (fun fr => fr.link = url) = [])
    (h : addNewSubscription env st url uid = .error ()) :
    addDiscoverFeedResolver env st url uid =
      ⟨.error [.Unauthorized], st, true, false, none, true⟩ := by
  simp [addDiscoverFeedResolver, hc, hrows, h]

theorem resolver_new_ok_error (env : Env) (st : Store) (url uid : String)
    (so : SubOutcome) (cs : List AddDiscoverFeedErrorCode)
    (hc : env.connectOk = true)
    (hrows : st.feeds.filter (fun fr => fr.link = url) = [])
    (h : addNewSubscription env st url uid = .ok so)
    (hres : so.result = .error cs) :
    addDiscoverFeedResolver env st url uid =
      ⟨.error cs, so.store, true, so.released, none, false⟩ := by
  simp [addDiscoverFeedResolver, hc, hrows, h, hres]

theorem resolver_new_ok_success (env : Env) (st : Store) (url uid : String)
    (so : SubOutcome) (f : DiscoverFeed) (hc : env.connectOk = true)
    (hrows : st.feeds.filter (fun fr => fr.link = url) = [])
    (h : addNewSubscription env st url uid = .ok so)
    (hres : so.result = .success f) :
    addDiscoverFeedResolver env st url uid =
      if env.publishOk then
        ⟨.success f, so.store, true, so.released,
          some ⟨"RSS_FEED", f, "NA", uid⟩, false⟩
      else
        ⟨.error [.Unauthorized], so.store, true, so.released,
          some ⟨"RSS_FEED", f, "NA", uid⟩, true⟩ := by
  cases hpub : env.publishOk <;>
    simp [addDiscoverFeedResolver, hc, hrows, h, hres, hpub]

theorem linkCount_eq_zero (st : Store) (url : String) :
    linkCount st url = 0 ↔
      st.feeds.filter (fun r => r.link = url) = [] := by
  simp [linkCount, List.length_eq_zero]

theorem resolver_feeds_cases (env : Env) (st : Store) (url uid : String) :
    (addDiscoverFeedResolver env st url uid).store.feeds = st.feeds ∨
    (linkCount st url = 0 ∧ ∃ row : FeedRow, row.link = url ∧
      (addDiscoverFeedResolver env st url uid).store.feeds =
        st.feeds ++ [row]) := by
  by_cases hc : env.connectOk = true
  · cases hrows : st.feeds.filter (fun fr => fr.link = url) with
    | cons r rest =>
        left
        rw [resolver_existing env st url uid r rest hc hrows]
    | nil =>
        cases h : addNewSubscription env st url uid with
        | error u =>
            cases u
            left
            rw [resolver_new_throw env st url uid hc hrows h]
        | ok so =>
            rcases addNewSubscription_ok_cases env st url uid so h with
              hbad | ⟨doc, fd, _, _, _, hlink, hsucc⟩
            · left
              rw [resolver_new_ok_error env st url uid so [.BadRequest]
                hc hrows h (by rw [hbad]), hbad]
            · right
              refine ⟨(linkCount_eq_zero st url).mpr hrows,
                ⟨env.newId, fd.title, fd.link, fd.image, fd.type,
                  fd.description⟩, hlink, ?_⟩
              rw [resolver_new_ok_success env st url uid so _ hc hrows h
                (by rw [hsucc])]
              cases env.publishOk <;> simp [hsucc]
  · left
    rw [resolver_connect_fail env st url uid (by simpa using hc)]

theorem resolver_linkCount_le_one (env : Env) (st : Store) (url uid : String)
    (h : linkCount st url ≤ 1) :
    linkCount (addDiscoverFeedResolver env st url uid).store url ≤ 1 := by
  rcases resolver_feeds_cases env st url uid with hsame | ⟨hzero, row, hlink, happ⟩
  · simpa [linkCount, hsame] using h
  · have hnil := (linkCount_eq_zero st url).mp hzero
    simp [linkCount, happ, List.filter_append, hnil, hlink]

theorem resolver_linkCount_eq_one (env : Env) (st : Store) (url uid : String)
    (h : linkCount st url = 1) :
    linkCount (addDiscoverFeedResolver env st url uid).store url = 1 := by
  rcases resolver_feeds_cases env st url uid with hsame | ⟨hzero, _, _, _⟩
  · simpa [linkCount, hsame] using h
  · omega

theorem runCalls_linkCount_le_one (l : List (Env × String)) (st : Store)
    (url : String) (h : linkCount st url ≤ 1) :
    linkCount (runCalls st url l) url ≤ 1 := by
  induction l generalizing st with
  | nil => simpa [runCalls] using h
  | cons p rest ih =>
      obtain ⟨env, uid⟩ := p
      exact ih _ (resolver_linkCount_le_one env st url uid h)

theorem runCalls_linkCount_eq_one (l : List (Env × String)) (st : Store)
    (url : String) (h : linkCount st url = 1) :
    linkCount (runCalls st url l) url = 1 := by
  induction l generalizing st with
  | nil => simpa [runCalls] using h
  | cons p rest ih =>
      obtain ⟨env, uid⟩ := p
      exact ih _ (resolver_linkCount_eq_one env st url uid h)

/-! ## Claim theorems -/

/-- C1: the claim says that when more than one subscription row already
exists for the caller and the feed, the call returns `Conflict`.  The code
compares the row array itself against `1`, which is always false under
JavaScript semantics, so with two pre-existing rows for `(user, f1)` the
call still succeeds and inserts a third row; `Conflict` is never returned. -/
theorem duplicate_subscription_no_conflict :
    (addDiscoverFeedResolver fetchThrowEnv twoSubsStore "http://u" "user").result =
      .success (bareRow "f1") ∧
    (addDiscoverFeedResolver fetchThrowEnv twoSubsStore "http://u" "user").result ≠
      .error [.Conflict] ∧
    (addDiscoverFeedResolver fetchThrowEnv twoSubsStore "http://u" "user").store.subs =
      [⟨"f1", "user"⟩, ⟨"f1", "user"⟩, ⟨"f1", "user"⟩] :=
  ⟨by decide, by decide, by decide⟩

/-- C2: at most one Feed row per canonical link, in the sequential model: a
call whose URL already has a Feed row never inserts a second one, and over
any sequence of discoveries of a link the count of Feed rows with that link
stays at most one (and stays exactly one once it is one). -/
theorem addDiscoverFeed_dedup_invariant (l : List (Env × String)) (st : Store)
    (url : String) (h : linkCount st url ≤ 1) :
    linkCount (runCalls st url l) url ≤ 1 ∧
    (linkCount st url = 1 → linkCount (runCalls st url l) url = 1) ∧
    (∀ env uid, 1 ≤ linkCount st url →
      (addDiscoverFeedResolver env st url uid).store.feeds = st.feeds) := by
  refine ⟨runCalls_linkCount_le_one l st url h, fun h1 => runCalls_linkCount_eq_one l st url h1, ?_⟩
  intro env uid hge
  rcases resolver_feeds_cases env st url uid with hsame | ⟨hzero, -⟩
  · exact hsame
  · omega

/-- Witness for C2 at a concrete input: an empty store and two discoveries
of the same URL by two users leave at most one Feed row with that link. -/
theorem addDiscoverFeed_dedup_invariant_witness :
    linkCount ⟨[], []⟩ "http://u" ≤ 1 ∧
    linkCount (runCalls ⟨[], []⟩ "http://u"
      [(dailyEnv, "u1"), (⟨true, some ⟨some "application/xml"⟩, some dailyDoc,
        "fid2", true⟩, "u2")]) "http://u" ≤ 1 :=
  ⟨by decide,
    (addDiscoverFeed_dedup_invariant
      [(dailyEnv, "u1"), (⟨true, some ⟨some "application/xml"⟩, some dailyDoc,
        "fid2", true⟩, "u2")] ⟨[], []⟩ "http://u" (by decide)).1⟩

/-- C10: on the existing-feed path the lookup selects only the `id` column
and the success result carries that bare row: every other field of the
returned feed is absent. -/
theorem existing_feed_bare_result (env : Env) (st : Store) (url uid : String)
    (r : FeedRow) (rest : List FeedRow) (hc : env.connectOk = true)
    (hrows : st.feeds.filter (fun fr => fr.link = url) = r :: rest) :
    (addDiscoverFeedResolver env st url uid).result =
      .success ⟨r.id, none, none, none, none, none⟩ := by
  rw [resolver_existing env st url uid r rest hc hrows]
  rfl

/-- Witness for C10: joining a store whose feed row is fully populated
returns a feed carrying only the identifier. -/
theorem existing_feed_bare_result_witness :
    oneFeedStore.feeds.filter (fun fr => fr.link = "http://u") =
      [⟨"f1", "T", "http://u", some "I", "rss", "D"⟩] ∧
    (addDiscoverFeedResolver fetchThrowEnv oneFeedStore "http://u" "user").result =
      .success ⟨"f1", none, none, none, none, none⟩ :=
  ⟨by decide,
    existing_feed_bare_result fetchThrowEnv oneFeedStore "http://u" "user"
      ⟨"f1", "T", "http://u", some "I", "rss", "D"⟩ [] rfl (by decide)⟩

/-- C3: on the new-feed path, whenever extraction succeeds and the resolved
title (URL fallback included) is the empty string, the call returns
`BadRequest` and the store is untouched: no Feed row and no Subscription row
is inserted. -/
theorem empty_title_badRequest (env : Env) (st : Store) (url uid : String)
    (resp : HttpResp) (doc : ParsedDoc) (fd : FeedData)
    (hc : env.connectOk = true) (hnew : linkCount st url = 0)
    (hf : env.fetchResp = some resp)
    (hx : isXMLContentType resp.contentType = true)
    (hp : env.parseResult = some doc)
    (he : extractForDoc url doc = some fd) (ht : fd.title = "") :
    (addDiscoverFeedResolver env st url uid).result = .error [.BadRequest] ∧
    (addDiscoverFeedResolver env st url uid).store = st := by
  have hrows := (linkCount_eq_zero st url).mp hnew
  have hadd := addNewSubscription_empty_title env st url uid resp doc fd
    hf hx hp he ht
  rw [resolver_new_ok_error env st url uid _ [.BadRequest] hc hrows hadd rfl]
  exact ⟨rfl, rfl⟩

/-- Witness for C3: a valid Atom document with an empty title is rejected
with `BadRequest` and nothing is inserted. -/
theorem empty_title_badRequest_witness :
    extractForDoc "http://u" atomEmptyTitleDoc =
      some ⟨"", "", none, "http://u", "atom"⟩ ∧
    (addDiscoverFeedResolver atomEmptyTitleEnv ⟨[], []⟩ "http://u" "user").result =
      .error [.BadRequest] ∧
    (addDiscoverFeedResolver atomEmptyTitleEnv ⟨[], []⟩ "http://u" "user").store =
      ⟨[], []⟩ :=
  ⟨by decide,
    (empty_title_badRequest atomEmptyTitleEnv ⟨[], []⟩ "http://u" "user"
      ⟨some "application/xml"⟩ atomEmptyTitleDoc ⟨"", "", none, "http://u", "atom"⟩
      rfl (by decide) rfl (by decide) rfl (by decide) rfl).1,
    (empty_title_badRequest atomEmptyTitleEnv ⟨[], []⟩ "http://u" "user"
      ⟨some "application/xml"⟩ atomEmptyTitleDoc ⟨"", "", none, "http://u", "atom"⟩
      rfl (by decide) rfl (by decide) rfl (by decide) rfl).2⟩

/-- C4: on the new-feed path, a response whose declared content type passes
none of the code's accepted patterns is rejected with `BadRequest`, the
store is untouched, and the result does not depend on the parse result of
the body at all (the content-type check precedes parsing). -/
theorem content_type_gate (env : Env) (st : Store) (url uid : String)
    (resp : HttpResp)
    (hc : env.connectOk = true) (hnew : linkCount st url = 0)
    (hf : env.fetchResp = some resp)
    (hx : isXMLContentType resp.contentType = false) :
    (addDiscoverFeedResolver env st url uid).result = .error [.BadRequest] ∧
    (addDiscoverFeedResolver env st url uid).store = st ∧
    ∀ pr, addDiscoverFeedResolver { env with parseResult := pr } st url uid =
      addDiscoverFeedResolver env st url uid := by
  have hrows := (linkCount_eq_zero st url).mp hnew
  have hadd := addNewSubscription_not_xml env st url uid resp hf hx
  rw [resolver_new_ok_error env st url uid _ [.BadRequest] hc hrows hadd rfl]
  refine ⟨rfl, rfl, fun pr => ?_⟩
  have hadd' := addNewSubscription_not_xml { env with parseResult := pr }
    st url uid resp hf hx
  rw [resolver_new_ok_error { env with parseResult := pr } st url uid _
    [.BadRequest] hc hrows hadd' rfl]

/-- Witness for C4: a `text/html` response whose body is the well-formed
Daily/News RSS document is still rejected with `BadRequest`. -/
theorem content_type_gate_witness :
    isXMLContentType (some "text/html") = false ∧
    (addDiscoverFeedResolver htmlEnv ⟨[], []⟩ "http://u" "user").result =
      .error [.BadRequest] ∧
    (addDiscoverFeedResolver htmlEnv ⟨[], []⟩ "http://u" "user").store =
      ⟨[], []⟩ :=
  ⟨by decide,
    (content_type_gate htmlEnv ⟨[], []⟩ "http://u" "user"
      ⟨some "text/html"⟩ rfl (by decide) rfl (by decide)).1,
    (content_type_gate htmlEnv ⟨[], []⟩ "http://u" "user"
      ⟨some "text/html"⟩ rfl (by decide) rfl (by decide)).2.1⟩

/-- C5: format dispatch priority on the parsed root keys: an `rss` or
`rdf:RDF` root is extracted as RSS with record type `rss` even when a `feed`
root is also present; otherwise a `feed` root is extracted as Atom with
record type `atom`, description from `subtitle` defaulting to the empty
string and image from `icon`; with no recognizable root the call returns
`BadRequest`. -/
theorem format_dispatch_priority (env : Env) (st : Store) (url uid : String)
    (resp : HttpResp) (doc : ParsedDoc)
    (hc : env.connectOk = true) (hnew : linkCount st url = 0)
    (hf : env.fetchResp = some resp)
    (hx : isXMLContentType resp.contentType = true)
    (hp : env.parseResult = some doc) :
    (∀ r, (doc.rss = some r ∨ (doc.rss = none ∧ doc.rdfRDF = some r)) →
      extractForDoc url doc = extractRssData url r ∧
      ∀ fd, extractRssData url r = some fd → fd.type = "rss") ∧
    (∀ f, doc.rss = none → doc.rdfRDF = none → doc.feed = some f →
      extractForDoc url doc = some (extractAtomData url f) ∧
      (extractAtomData url f).type = "atom" ∧
      (extractAtomData url f).description = f.subtitle.getD "" ∧
      (extractAtomData url f).image = f.icon) ∧
    (doc.rss = none → doc.rdfRDF = none → doc.feed = none →
      (addDiscoverFeedResolver env st url uid).result = .error [.BadRequest]) := by
  refine ⟨?_, ?_, ?_⟩
  · rintro r (hr | ⟨hr1, hr2⟩)
    · refine ⟨by simp [extractForDoc, hr], ?_⟩
      intro fd hfd
      cases hch : r.channel with
      | none => simp [extractRssData, hch] at hfd
      | some ch =>
          simp only [extractRssData, hch, Option.some.injEq] at hfd
          subst hfd; rfl
    · refine ⟨by simp [extractForDoc, hr1, hr2], ?_⟩
      intro fd hfd
      cases hch : r.channel with
      | none => simp [extractRssData, hch] at hfd
      | some ch =>
          simp only [extractRssData, hch, Option.some.injEq] at hfd
          subst hfd; rfl
  · intro f hr1 hr2 hfe
    exact ⟨by simp [extractForDoc, hr1, hr2, hfe], rfl, rfl, rfl⟩
  · intro hr1 hr2 hfe
    have hrows := (linkCount_eq_zero st url).mp hnew
    have hadd := addNewSubscription_no_root env st url uid resp doc hf hx hp
      (by simp [hr1, hr2, hfe])
    rw [resolver_new_ok_error env st url uid _ [.BadRequest] hc hrows hadd rfl]

/-- Witness for C5: a document carrying both an `rss` root and a `feed` root
is dispatched as RSS, with record type `rss`. -/
theorem format_dispatch_priority_witness :
    bothRootsDoc.feed.isSome = true ∧
    extractForDoc "http://u" bothRootsDoc =
      extractRssData "http://u" ⟨some ⟨some "R", none, none⟩, none⟩ ∧
    extractForDoc "http://u" bothRootsDoc =
      some ⟨"R", "", none, "http://u", "rss"⟩ :=
  ⟨by decide,
    ((format_dispatch_priority bothRootsEnv ⟨[], []⟩ "http://u" "user"
      ⟨some "application/xml"⟩ bothRootsDoc rfl (by decide) rfl (by decide)
      rfl).1 ⟨some ⟨some "R", none, none⟩, none⟩ (Or.inl rfl)).1,
    by decide⟩

/-- C6 counterexample: the claim says the image comes from
`channel.image.url` when present.  `channelImageDoc` carries
`channel.image.url = "http://img"` and no root-level `image` key, yet the
successful result's image is `none`, because `extractRssData` reads
`parsedXml.image?.url` at the root, next to `channel`, not inside it. -/
theorem rss_channel_image_ignored :
    (channelImageDoc.rss.bind RssContent.channel).bind RssChannel.image =
      some ⟨some "http://img"⟩ ∧
    (addDiscoverFeedResolver channelImageEnv ⟨[], []⟩ "http://u" "user").result =
      .success ⟨"fid", some "T", some "http://u", some "D", none, some "rss"⟩ ∧
    (addDiscoverFeedResolver channelImageEnv ⟨[], []⟩ "http://u" "user").result ≠
      .success ⟨"fid", some "T", some "http://u", some "D", some "http://img",
        some "rss"⟩ :=
  ⟨by decide, by decide, by decide⟩

/-- C6 as amended: for every document dispatched as RSS/RDF whose channel is
present and whose resolved title is non-empty, the successful result is
exactly {title = channel.title with URL fallback, description =
channel.description defaulting to the empty string, image = the root-level
image.url of the rss/rdf content when present, link = the requested URL,
type = rss}, and the inserted Feed row matches. -/
theorem rss_extraction (env : Env) (st : Store) (url uid : String)
    (resp : HttpResp) (doc : ParsedDoc) (r : RssContent) (ch : RssChannel)
    (hc : env.connectOk = true) (hnew : linkCount st url = 0)
    (hf : env.fetchResp = some resp)
    (hx : isXMLContentType resp.contentType = true)
    (hp : env.parseResult = some doc)
    (hr : doc.rss = some r ∨ (doc.rss = none ∧ doc.rdfRDF = some r))
    (hch : r.channel = some ch)
    (ht : ¬ch.title.getD url = "") (hpub : env.publishOk = true) :
    (addDiscoverFeedResolver env st url uid).result =
      .success ⟨env.newId, some (ch.title.getD url), some url,
        some (ch.description.getD ""), r.image.bind ImageObj.url, some "rss"⟩ ∧
    (addDiscoverFeedResolver env st url uid).store =
      ⟨st.feeds ++ [⟨env.newId, ch.title.getD url, url,
          r.image.bind ImageObj.url, "rss", ch.description.getD ""⟩],
        st.subs ++ [⟨env.newId, uid⟩]⟩ := by
  have hrows := (linkCount_eq_zero st url).mp hnew
  have he : extractForDoc url doc =
      some ⟨ch.title.getD url, ch.description.getD "",
        r.image.bind ImageObj.url, url, "rss"⟩ := by
    rcases hr with hr | ⟨hr1, hr2⟩
    · simp [extractForDoc, hr, extractRssData, hch]
    · simp [extractForDoc, hr1, hr2, extractRssData, hch]
  have hadd := addNewSubscription_success env st url uid resp doc _
    hf hx hp he ht
  rw [resolver_new_ok_success env st url uid _ _ hc hrows hadd rfl, hpub]
  exact ⟨rfl, rfl⟩

/-- Witness for the amended C6, and the Daily/News scenario: the sample RSS
document served as `application/xml` succeeds with exactly the claimed
feed. -/
theorem rss_extraction_witness :
    (addDiscoverFeedResolver dailyEnv ⟨[], []⟩ "http://u" "user").result =
      .success ⟨"fid", some "Daily", some "http://u", some "News", none,
        some "rss"⟩ ∧
    (addDiscoverFeedResolver dailyEnv ⟨[], []⟩ "http://u" "user").store =
      ⟨[⟨"fid", "Daily", "http://u", none, "rss", "News"⟩], [⟨"fid", "user"⟩]⟩ :=
  rss_extraction dailyEnv ⟨[], []⟩ "http://u" "user"
    ⟨some "application/xml"⟩ dailyDoc ⟨some ⟨some "Daily", some "News", none⟩, none⟩
    ⟨some "Daily", some "News", none⟩ rfl (by decide) rfl (by decide) rfl
    (Or.inl rfl) rfl (by decide) rfl

/-- C7: the claim says the acquired connection is released on every exit
path.  On the `BadRequest` path for a `text/html` response the runner is
acquired but the resolver returns without releasing it; the same holds for
the success of the existing-feed path. -/
theorem connection_leak_on_exit_paths :
    (addDiscoverFeedResolver htmlEnv ⟨[], []⟩ "http://u" "user").acquired = true ∧
    (addDiscoverFeedResolver htmlEnv ⟨[], []⟩ "http://u" "user").result =
      .error [.BadRequest] ∧
    (addDiscoverFeedResolver htmlEnv ⟨[], []⟩ "http://u" "user").released = false ∧
    (addDiscoverFeedResolver fetchThrowEnv oneFeedStore "http://u" "user").acquired =
      true ∧
    (addDiscoverFeedResolver fetchThrowEnv oneFeedStore "http://u" "user").result =
      .success (bareRow "f1") ∧
    (addDiscoverFeedResolver fetchThrowEnv oneFeedStore "http://u" "user").released =
      false :=
  ⟨by decide, by decide, by decide, by decide, by decide, by decide⟩

/-- C8: every call returns a success or a typed failure from the closed
vocabulary BadRequest, Conflict, Unauthorized — the resolver is total over
all modelled collaborator behaviors — and a modelled exception inside the
new-feed path is caught at the boundary, logged, and reported as
`Unauthorized`. -/
theorem closed_error_vocabulary (env : Env) (st : Store) (url uid : String) :
    ((∃ f, (addDiscoverFeedResolver env st url uid).result = .success f) ∨
      (addDiscoverFeedResolver env st url uid).result = .error [.BadRequest] ∨
      (addDiscoverFeedResolver env st url uid).result = .error [.Conflict] ∨
      (addDiscoverFeedResolver env st url uid).result = .error [.Unauthorized]) ∧
    (env.connectOk = true → linkCount st url = 0 →
      addNewSubscription env st url uid = .error () →
      (addDiscoverFeedResolver env st url uid).result = .error [.Unauthorized] ∧
      (addDiscoverFeedResolver env st url uid).logged = true) := by
  constructor
  · by_cases hc : env.connectOk = true
    · cases hrows : st.feeds.filter (fun fr => fr.link = url) with
      | cons r rest =>
          exact Or.inl ⟨bareRow r.id,
            by rw [resolver_existing env st url uid r rest hc hrows]⟩
      | nil =>
          cases h : addNewSubscription env st url uid with
          | error u =>
              cases u
              exact Or.inr (Or.inr (Or.inr
                (by rw [resolver_new_throw env st url uid hc hrows h])))
          | ok so =>
              rcases addNewSubscription_ok_cases env st url uid so h with
                hbad | ⟨doc, fd, -, -, -, -, hsucc⟩
              · exact Or.inr (Or.inl
                  (by rw [resolver_new_ok_error env st url uid so [.BadRequest]
                    hc hrows h (by rw [hbad]), hbad]))
              · have hres : so.result = .success ⟨env.newId, some fd.title,
                    some fd.link, some fd.description, fd.image, some fd.type⟩ := by
                  rw [hsucc]
                have hr2 := resolver_new_ok_success env st url uid so _
                  hc hrows h hres
                cases hpub : env.publishOk with
                | true =>
                    rw [hpub] at hr2
                    simp only [if_true] at hr2
                    exact Or.inl ⟨_, by rw [hr2]⟩
                | false =>
                    rw [hpub] at hr2
                    simp only [Bool.false_eq_true, if_false] at hr2
                    exact Or.inr (Or.inr (Or.inr (by rw [hr2])))
    · have hc' : env.connectOk = false := by
        revert hc; cases env.connectOk <;> simp
      exact Or.inr (Or.inr (Or.inr
        (by rw [resolver_connect_fail env st url uid hc'])))
  · intro hc hnew hthrow
    rw [resolver_new_throw env st url uid hc
      ((linkCount_eq_zero st url).mp hnew) hthrow]
    exact ⟨rfl, rfl⟩

/-- Witness for C8: a rejected HTTP fetch is caught, logged, and reported as
`Unauthorized`. -/
theorem closed_error_vocabulary_witness :
    (addDiscoverFeedResolver fetchThrowEnv ⟨[], []⟩ "http://u" "user").result =
      .error [.Unauthorized] ∧
    (addDiscoverFeedResolver fetchThrowEnv ⟨[], []⟩ "http://u" "user").logged =
      true :=
  (closed_error_vocabulary fetchThrowEnv ⟨[], []⟩ "http://u" "user").2
    rfl (by decide) rfl

/-- C9 counterexample: the claim says a failure of the publish must not
change the success result returned to the caller.  With collaborators that
complete the new-feed path but whose `entityCreated` rejects, the event is
invoked with the claimed shape and the inserted rows stay committed, yet the
caller receives `Unauthorized` instead of the success: the publish is
awaited inside the try block, so its failure reaches the boundary catch. -/
theorem publish_failure_changes_result :
    (addDiscoverFeedResolver publishFailEnv ⟨[], []⟩ "http://u" "user").published =
      some ⟨"RSS_FEED", ⟨"fid", some "Daily", some "http://u", some "News",
        none, some "rss"⟩, "NA", "user"⟩ ∧
    (addDiscoverFeedResolver publishFailEnv ⟨[], []⟩ "http://u" "user").store =
      ⟨[⟨"fid", "Daily", "http://u", none, "rss", "News"⟩], [⟨"fid", "user"⟩]⟩ ∧
    (addDiscoverFeedResolver publishFailEnv ⟨[], []⟩ "http://u" "user").result =
      .error [.Unauthorized] ∧
    ∀ f, (addDiscoverFeedResolver publishFailEnv ⟨[], []⟩ "http://u" "user").result ≠
      .success f := by
  refine ⟨by decide, by decide, by decide, fun f h => ?_⟩
  have : (addDiscoverFeedResolver publishFailEnv ⟨[], []⟩ "http://u" "user").result =
      .error [.Unauthorized] := by decide
  rw [this] at h
  exact AddResult.noConfusion h

/-- C9 as amended: `entityCreated` is invoked exactly when the new-feed path
computes a success, with kind `RSS_FEED`, `libraryItemId = NA`, owner the
caller, and payload feed the success feed; it is never invoked on the
existing-feed path or on a failure.  A publish failure leaves the committed
rows in place, but the returned result is then the boundary `Unauthorized`
failure rather than the success. -/
theorem entityCreated_on_new_feed_success (env : Env) (st : Store)
    (url uid : String) (hc : env.connectOk = true) :
    ((addDiscoverFeedResolver env st url uid).published.isSome = true ↔
      (linkCount st url = 0 ∧ ∃ so f, addNewSubscription env st url uid = .ok so ∧
        so.result = .success f)) ∧
    (∀ e, (addDiscoverFeedResolver env st url uid).published = some e →
      e.kind = "RSS_FEED" ∧ e.libraryItemId = "NA" ∧ e.ownerId = uid ∧
      ∃ so, addNewSubscription env st url uid = .ok so ∧
        so.result = .success e.feed ∧
        (addDiscoverFeedResolver env st url uid).store = so.store ∧
        (env.publishOk = true →
          (addDiscoverFeedResolver env st url uid).result = .success e.feed) ∧
        (env.publishOk = false →
          (addDiscoverFeedResolver env st url uid).result =
            .error [.Unauthorized])) := by
  cases hrows : st.feeds.filter (fun fr => fr.link = url) with
  | cons r rest =>
      rw [resolver_existing env st url uid r rest hc hrows]
      constructor
      · constructor
        · intro hfalse; simp at hfalse
        · rintro ⟨hzero, -⟩
          rw [linkCount_eq_zero st url, hrows] at hzero
          exact List.noConfusion hzero
      · intro e he
        exact Option.noConfusion he
  | nil =>
      cases h : addNewSubscription env st url uid with
      | error u =>
          cases u
          rw [resolver_new_throw env st url uid hc hrows h]
          constructor
          · constructor
            · intro hfalse; simp at hfalse
            · rintro ⟨-, so, f, hso, -⟩
              exact Except.noConfusion hso
          · intro e he
            exact Option.noConfusion he
      | ok so =>
          cases hres : so.result with
          | error cs =>
              rw [resolver_new_ok_error env st url uid so cs hc hrows h hres]
              constructor
              · constructor
                · intro hfalse; simp at hfalse
                · rintro ⟨-, so', f, hso', hres'⟩
                  injection hso' with hso''
                  rw [← hso'', hres] at hres'
                  exact AddResult.noConfusion hres'
              · intro e he
                exact Option.noConfusion he
          | success f =>
              have hr2 := resolver_new_ok_success env st url uid so f
                hc hrows h hres
              cases hpub : env.publishOk with
              | true =>
                  rw [hpub] at hr2
                  simp only [if_true] at hr2
                  rw [hr2]
                  constructor
                  · exact ⟨fun _ => ⟨(linkCount_eq_zero st url).mpr hrows,
                      so, f, rfl, hres⟩, fun _ => rfl⟩
                  · intro e he
                    injection he with he'
                    subst he'
                    exact ⟨rfl, rfl, rfl, so, rfl, hres, rfl, fun _ => rfl,
                      fun hpf => Bool.noConfusion hpf⟩
              | false =>
                  rw [hpub] at hr2
                  simp only [Bool.false_eq_true, if_false] at hr2
                  rw [hr2]
                  constructor
                  · exact ⟨fun _ => ⟨(linkCount_eq_zero st url).mpr hrows,
                      so, f, rfl, hres⟩, fun _ => rfl⟩
                  · intro e he
                    injection he with he'
                    subst he'
                    exact ⟨rfl, rfl, rfl, so, rfl, hres, rfl,
                      fun hpt => Bool.noConfusion hpt, fun _ => rfl⟩

/-- Witness for the amended C9: on a successful discovery the event is
published. -/
theorem entityCreated_on_new_feed_success_witness :
    (addDiscoverFeedResolver dailyEnv ⟨[], []⟩ "http://u" "user").published.isSome =
      true :=
  (entityCreated_on_new_feed_success dailyEnv ⟨[], []⟩ "http://u" "user" rfl).1.mpr
    ⟨by decide,
      ⟨.success ⟨"fid", some "Daily", some "http://u", some "News", none,
          some "rss"⟩,
        ⟨[⟨"fid", "Daily", "http://u", none, "rss", "News"⟩], [⟨"fid", "user"⟩]⟩,
        true⟩,
      ⟨"fid", some "Daily", some "http://u", some "News", none, some "rss"⟩,
      rfl, rfl⟩

end Omnivore
